import Mathlib

/-!
Formal model of the Gitget module (`as3ninja/gitget.py`).

The development shallowly embeds the module's pure computations (shell
quoting via `shlex.quote`, git-log parsing, UTC timestamp formatting,
command-line construction) as executable Lean functions, and models the
stateful session lifecycle (`__init__`, `__enter__`, `__exit__`,
`_run_command`) as explicit state passing over an abstract filesystem
and an oracle describing the results of the external `git` subprocess
invocations.
-/

deriving instance DecidableEq for Except

namespace AS3Ninja

/-! ## Character constants

Characters that are awkward to write as literals are defined by code point. -/

/-- The single-quote character `0x27`. -/
def squote : Char := Char.ofNat 39

/-- The double-quote character `0x22`. -/
def dquote : Char := Char.ofNat 34

/-- The backslash character `0x5c`. -/
def bslash : Char := Char.ofNat 92

/-- The dollar character `0x24`. -/
def dollarCh : Char := Char.ofNat 36

/-- The backquote character `0x60`. -/
def bquoteCh : Char := Char.ofNat 96

/-- Line feed `0x0a`. -/
def lfChar : Char := Char.ofNat 10

/-- Carriage return `0x0d`. -/
def crChar : Char := Char.ofNat 13

/-! ## `shlex.quote`

`Gitget._sh_quote` delegates to Python's `shlex.quote`: if the string is
empty it returns two single quotes; if every character matches the ASCII
class `\w` or one of `@ % + = : , . - slash` it returns the string
unchanged; otherwise it wraps the string in single quotes, rendering
each embedded single quote as: quote, double-quote, quote, double-quote,
quote. -/

/-- The non-alphanumeric characters `shlex.quote` treats as safe
(`@ % + = : , . / -` together with `_`, which is also in ASCII `\w`). -/
def safeList : List Char := ['_', '@', '%', '+', '=', ':', ',', '.', '/', '-']

/-- A character `shlex.quote` treats as safe: ASCII `\w` (which is
`[a-zA-Z0-9_]`; `Char.isAlphanum` is exactly ASCII alphanumeric) or one
of `safeList`. -/
def safeChar (c : Char) : Bool := c.isAlphanum || safeList.contains c

/-- The replacement `s.replace("'", "'\"'\"'")` performed by `shlex.quote`,
on the character list of the string. -/
def escSq : List Char → List Char
  | [] => []
  | c :: t =>
    if c = squote then squote :: dquote :: squote :: dquote :: squote :: escSq t
    else c :: escSq t

/-- Python's `shlex.quote`: empty strings become `''`; strings of safe
characters are returned unchanged; anything else is wrapped in single
quotes with embedded single quotes rendered as `'"'"'`. -/
def shlexQuote (s : String) : String :=
  if s.data.isEmpty then String.mk [squote, squote]
  else if s.data.all safeChar then s
  else String.mk (squote :: (escSq s.data ++ [squote]))

/-- A Python scalar reaching `Gitget._sh_quote` (the module passes strings
and ints). -/
inductive Scalar where
  | str (s : String)
  | int (i : Int)
deriving DecidableEq

/-- Python's `str()` on the scalars used by the module. -/
def pyStr : Scalar → String
  | .str s => s
  | .int i => toString i

namespace Gitget

/-- `Gitget._sh_quote`: `shlex.quote(str(arg))`. -/
def _sh_quote (arg : Scalar) : String := shlexQuote (pyStr arg)

end Gitget

/-! ## A POSIX shell tokenizer

To state the round-trip property of `shlex.quote` we model how a POSIX
shell would read back a single word: single quotes protect everything
until the closing quote; double quotes protect everything except `$`,
backquote and backslash escapes; a backslash outside quotes escapes the
next character; unquoted metacharacters, globbing characters and
expansion triggers mean the word is not a fixed literal token, so the
parse is rejected. -/

/-- Characters that a POSIX shell does not treat as literal text when
they appear unquoted (word separators, control operators, redirections,
expansion and globbing triggers, comment and tilde markers). -/
def spChars : List Char :=
  [Char.ofNat 32, Char.ofNat 9, lfChar, crChar,
   '|', '&', ';', '(', ')', '<', '>',
   dollarCh, bquoteCh, '*', '?', '[', ']',
   Char.ofNat 35, '~', '!', Char.ofNat 123, Char.ofNat 125]

/-- Whether an unquoted occurrence of `c` is shell-special. -/
def shellSpecial (c : Char) : Bool := spChars.contains c

/-- Tokenizer state: outside quotes, inside single quotes, inside double
quotes, and the two states right after a backslash (outside quotes and
inside double quotes respectively). -/
inductive QState where
  | out
  | inSq
  | inDq
  | escOut
  | escDq
deriving DecidableEq

/-- Reads one shell word to its literal value, or `none` when the input
is not a single fixed literal token (unterminated quote or escape,
metacharacter, or expansion trigger).  A backslash outside quotes
escapes the next character (backslash-newline is a line continuation);
inside double quotes a backslash escapes only dollar, backquote, double
quote and backslash, and is otherwise kept literally. -/
def parseTok : QState → List Char → Option (List Char)
  | .out, [] => some []
  | .out, c :: t =>
    if c = squote then parseTok .inSq t
    else if c = dquote then parseTok .inDq t
    else if c = bslash then parseTok .escOut t
    else if shellSpecial c then none
    else Option.map (fun l => c :: l) (parseTok .out t)
  | .escOut, [] => none
  | .escOut, d :: t =>
    if d = lfChar then parseTok .out t
    else Option.map (fun l => d :: l) (parseTok .out t)
  | .inSq, [] => none
  | .inSq, c :: t =>
    if c = squote then parseTok .out t
    else Option.map (fun l => c :: l) (parseTok .inSq t)
  | .inDq, [] => none
  | .inDq, c :: t =>
    if c = dquote then parseTok .out t
    else if c = bslash then parseTok .escDq t
    else if c = dollarCh ∨ c = bquoteCh then none
    else Option.map (fun l => c :: l) (parseTok .inDq t)
  | .escDq, [] => none
  | .escDq, d :: t =>
    if d = lfChar then parseTok .inDq t
    else if d = dollarCh ∨ d = bquoteCh ∨ d = dquote ∨ d = bslash then
      Option.map (fun l => d :: l) (parseTok .inDq t)
    else Option.map (fun l => bslash :: d :: l) (parseTok .inDq t)

/-- Reads a whole string as a single shell word. -/
def shellParseToken (s : String) : Option String :=
  Option.map String.mk (parseTok .out s.data)

/-! ## `str.splitlines` and `int`

`Gitget._get_gitlog` unpacks `result.splitlines(keepends=False)` into six
variables and converts the two epoch fields with `int(...)`. -/

/-- A Python line boundary as recognised by `str.splitlines`:
`\n`, `\r`, `\v` `0x0b`, `\f` `0x0c`, the separators `0x1c` to `0x1e`,
`0x85`, `0x2028` and `0x2029` (`\r\n` counts as a single boundary). -/
def isLineBreak (c : Char) : Bool :=
  c = lfChar || c = crChar || c.toNat = 0x0b || c.toNat = 0x0c ||
  c.toNat = 0x1c || c.toNat = 0x1d || c.toNat = 0x1e ||
  c.toNat = 0x85 || c.toNat = 0x2028 || c.toNat = 0x2029

/-- Worker for `splitlines`: `acc` holds the current line, reversed; the
flag records that the previous character was a carriage return, so that
an immediately following line feed is absorbed into the same `\r\n`
boundary. -/
def splitlinesAux : Bool → List Char → List Char → List String
  | _, [], acc => if acc.isEmpty then [] else [String.mk acc.reverse]
  | afterCR, c :: rest, acc =>
    if afterCR ∧ c = lfChar then splitlinesAux false rest acc
    else if c = crChar then String.mk acc.reverse :: splitlinesAux true rest []
    else if isLineBreak c then String.mk acc.reverse :: splitlinesAux false rest []
    else splitlinesAux false rest (c :: acc)

/-- Python's `str.splitlines(keepends=False)`: a trailing line boundary
does not produce an extra empty line. -/
def splitlines (s : String) : List String := splitlinesAux false s.data []

/-- Decimal digits read to a natural number; `none` when the list is
empty or holds a non-digit. -/
def decDigits : List Char → Option Nat
  | [] => none
  | l =>
    if l.all Char.isDigit then
      some (l.foldl (fun a c => a * 10 + (c.toNat - 48)) 0)
    else none

/-- A character Python's `int()` strips around a decimal literal
(space, tab, and the line-break controls). -/
def isPySpace (c : Char) : Bool :=
  c = Char.ofNat 32 || c = Char.ofNat 9 || isLineBreak c

/-- Python's `int()` applied to a string: surrounding whitespace is
stripped, an optional sign precedes the digits (digit grouping with
underscores is not used by any git log output and is not modelled). -/
def pyInt (s : String) : Option Int :=
  let t := ((s.data.dropWhile isPySpace).reverse.dropWhile isPySpace).reverse
  match t with
  | '+' :: ds => Option.map (fun n => (n : Int)) (decDigits ds)
  | '-' :: ds => Option.map (fun n => -(n : Int)) (decDigits ds)
  | ds => Option.map (fun n => (n : Int)) (decDigits ds)

/-! ## UTC timestamp formatting

`Gitget._datetime_format` computes
`datetime.utcfromtimestamp(int(epoch)).strftime("%Y-%m-%dT%H:%M:%SZ")`.
The proleptic-Gregorian conversion from days since 1970-01-01 to a
civil date follows the standard era-based algorithm used by civil
calendar libraries. -/

/-- Civil date `(year, month, day)` of a day count relative to
1970-01-01 (proleptic Gregorian). -/
def civilFromDays (z0 : Int) : Int × Nat × Nat :=
  let z := z0 + 719468
  let era := Int.fdiv z 146097
  let doe := (z - era * 146097).toNat
  let yoe := (doe - doe / 1460 + doe / 36524 - doe / 146096) / 365
  let doy := doe - (365 * yoe + yoe / 4 - yoe / 100)
  let mp := (5 * doy + 2) / 153
  let d := doy - (153 * mp + 2) / 5 + 1
  let m := if mp < 10 then mp + 3 else mp - 9
  let y := (yoe : Int) + era * 400
  (if m ≤ 2 then y + 1 else y, m, d)

/-- Zero-pads a number below 100 to two digits (strftime field width). -/
def pad2 (n : Nat) : String :=
  if n < 10 then "0" ++ toString n else toString n

/-- Zero-pads a year to four digits (strftime `%Y` on glibc). -/
def padYear (y : Int) : String :=
  let n := y.toNat
  if y < 0 then "-" ++ toString (-y)
  else if n < 10 then "000" ++ toString n
  else if n < 100 then "00" ++ toString n
  else if n < 1000 then "0" ++ toString n
  else toString n

/-- `datetime.utcfromtimestamp(t).strftime("%Y-%m-%dT%H:%M:%SZ")` for an
integer epoch `t`. -/
def formatUTC (t : Int) : String :=
  let days := Int.fdiv t 86400
  let secs := (t - days * 86400).toNat
  let ymd := civilFromDays days
  padYear ymd.1 ++ "-" ++ pad2 ymd.2.1 ++ "-" ++ pad2 ymd.2.2 ++ "T" ++
    pad2 (secs / 3600) ++ ":" ++ pad2 (secs % 3600 / 60) ++ ":" ++
    pad2 (secs % 60) ++ "Z"

namespace Gitget

/-- `Gitget._datetime_format(epoch)`: accepts an int or a str
(`Union[int, str]`); `int(epoch)` raises on a malformed string, modelled
as `none`. -/
def _datetime_format (epoch : Scalar) : Option String :=
  match epoch with
  | .int i => some (formatUTC i)
  | .str s => Option.map formatUTC (pyInt s)

end Gitget

/-! ## Data model

The session state of `Gitget` together with its external collaborators:
the process-wide settings, an abstract filesystem, and an oracle giving
the outcome of each `git` subprocess invocation. -/

/-- Modelled from the spec: the process-wide configuration collaborator
(`as3ninja.settings.NINJASETTINGS`, not part of the sources here)
exposing `GITGET_SSL_VERIFY`, `GITGET_PROXY` and `GITGET_TIMEOUT`;
read-only after process start.  The two transport options are only ever
interpolated into strings, so they are kept as their string forms. -/
structure Settings where
  GITGET_SSL_VERIFY : String
  GITGET_PROXY : String
  GITGET_TIMEOUT : Nat
deriving DecidableEq

/-- Abstract filesystem: the set of directory trees present, each
identified by its root path (the granularity at which `gitget.py`
creates and removes state), plus a freshness counter for `mkdtemp`. -/
structure FS where
  dirs : List String
  counter : Nat
deriving DecidableEq

/-- `tempfile.mkdtemp(suffix=".ninja.git")`: creates a fresh uniquely
named directory on disk and returns its path. -/
def mkdtemp (fs : FS) : String × FS :=
  let p := "/tmp/tmp" ++ toString fs.counter ++ ".ninja.git"
  (p, { dirs := p :: fs.dirs, counter := fs.counter + 1 })

/-- `shutil.rmtree`: recursively removes a directory tree. -/
def removeDir (fs : FS) (p : String) : FS :=
  { fs with dirs := fs.dirs.filter (fun q => q ≠ p) }

/-- `Path.mkdir(parents=True, exist_ok=True)` at the granularity of the
abstract filesystem. -/
def addDir (fs : FS) (p : String) : FS :=
  if fs.dirs.contains p then fs else { fs with dirs := p :: fs.dirs }

/-- Python truthiness of an optional string: `None` and `""` are falsy. -/
def truthyStr : Option String → Bool
  | none => false
  | some s => !(s = "")

/-- `str()` of an optional string as Python would render the object
(`None` prints as `"None"`). -/
def pyStrOpt : Option String → String
  | none => "None"
  | some s => s

/-- The structured git-log information `Gitget._get_gitlog` stores into
`self._gitlog` (the dict with `branch`, `commit` and `author` groups). -/
structure GitLog where
  branch : Option String
  commit_id : String
  commit_epoch : String
  commit_subject : String
  commit_id_short : String
  commit_date : String
  author_name : String
  author_email : String
  author_epoch : String
  author_date : String
deriving DecidableEq

/-- The constructor arguments of `Gitget.__init__` (defaults as in the
source). -/
structure GitgetRequest where
  repository : String
  depth : Int := 1
  branch : Option String := none
  commit : Option String := none
  repodir : Option String := none
  force : Bool := false
deriving DecidableEq

/-- Errors of the embedded module.  `valueError` models the `ValueError`
raised by `__init__` validation and by `int()`; `checkoutFailed` models
`GitgetException` raised by `_run_command`; `malformedLogOutput` models
the `ValueError` Python raises when unpacking a log output that does not
split into exactly six lines (it records the number of lines found). -/
inductive GitError where
  | valueError (msg : String)
  | checkoutFailed (msg : String)
  | malformedLogOutput (lines : Nat)
deriving DecidableEq

/-- The session object: the fields `__init__` assigns on `self`. -/
structure Gitget where
  _depth : Int
  _branch : Option String
  _commit : Option String
  _repo : String
  _repodir : String
  _repodir_perist : Bool
  _force : Bool
  _gitlog : Option GitLog
  settings : Settings
deriving DecidableEq

namespace Gitget

/-- `Gitget.__init__`: validates `depth` and the commit-id length
(`if commit and len(commit) < 40`), then either adopts the caller's
`repodir` (`if repodir:` — Python truthiness) or allocates a fresh
temporary directory with `mkdtemp`, which creates it on disk.  Both
validation failures happen before `mkdtemp` runs, so a rejected request
leaves the filesystem untouched. -/
def init (req : GitgetRequest) (st : Settings) (fs : FS) :
    Except GitError (Gitget × FS) :=
  if req.depth < 0 then
    .error (.valueError "depth must be 0 or a positive number.")
  else if truthyStr req.commit ∧ (req.commit.getD "").length < 40 then
    .error (.valueError
      "commit id is too short. full commit id is required, abreviated (7 char) format is not supported.")
  else if truthyStr req.repodir then
    .ok ({ _depth := req.depth, _branch := req.branch,
           _commit := req.commit, _repo := req.repository,
           _repodir := req.repodir.getD "", _repodir_perist := true,
           _force := req.force, _gitlog := none, settings := st }, fs)
  else
    .ok ({ _depth := req.depth, _branch := req.branch,
           _commit := req.commit, _repo := req.repository,
           _repodir := (mkdtemp fs).1, _repodir_perist := false,
           _force := req.force, _gitlog := none, settings := st },
         (mkdtemp fs).2)

/-- `self._gitcmd`: the executable plus the two fixed transport options
sourced from the settings. -/
def _gitcmd (g : Gitget) : List String :=
  ["git",
   "-c", "http.sslVerify=" ++ g.settings.GITGET_SSL_VERIFY,
   "-c", "http.proxy=" ++ g.settings.GITGET_PROXY]

/-- The `exclude None types from command` filter in `_run_command`:
`[command for command in cmd if command]` keeps the truthy entries
(`None` and the empty string are falsy). -/
def pyFilter (l : List (Option String)) : List String :=
  l.filterMap (fun x =>
    match x with
    | none => none
    | some s => if s = "" then none else some s)

/-- The full argument vector handed to `subprocess.run`:
`self._gitcmd + cmd` after the truthiness filter.  The process is run
without a shell (`run` receives the list directly). -/
def fullCmd (g : Gitget) (cmd : List (Option String)) : List String :=
  g._gitcmd ++ pyFilter cmd

/-- The result of one `subprocess.run` invocation of `git`, as observed
by `_run_command`: normal completion with exit status zero and captured
stdout; a `CalledProcessError` from `check_returncode` with captured
stderr; or a `TimeoutExpired` after `settings.GITGET_TIMEOUT` seconds
with the stderr captured so far. -/
inductive CmdResult where
  | success (stdout : String)
  | fail (returncode : Int) (stderr : String)
  | timeout (stderr : String)
deriving DecidableEq

/-- The external `git` executable (plus filesystem and network), as an
oracle from the full argument vector to the observed process result. -/
def Env : Type := List String → CmdResult

/-- `_stderr.replace("\n", "\\n")` applied to the captured stderr of a
failed subcommand. -/
def replaceNl (s : String) : String :=
  String.mk (s.data.foldr
    (fun c acc => if c = lfChar then bslash :: 'n' :: acc else c :: acc) [])

/-- `Gitget._run_command`: runs the command and wraps any
`CalledProcessError` or `TimeoutExpired` into a `GitgetException`
carrying the classification and the stderr text. -/
def _run_command (g : Gitget) (env : Env) (cmd : List (Option String)) :
    Except GitError String :=
  match env (g.fullCmd cmd) with
  | .success out => .ok out
  | .fail _ stderr =>
      .error (.checkoutFailed
        ("Gitget failed due to exception:CalledProcessError, STDERR: " ++
          replaceNl stderr))
  | .timeout stderr =>
      .error (.checkoutFailed
        ("Gitget failed due to exception:TimeoutExpired, STDERR: " ++ stderr))

/-- The argument list built by `Gitget._clone` (before the truthiness
filter): `X and Y or None` yields `Y` when `X` is truthy and `None`
otherwise, for the int `depth` and the optional `branch`. -/
def _cloneArgs (g : Gitget) : List (Option String) :=
  [some "clone",
   if g._depth = 0 then none else some "--depth",
   if g._depth = 0 then none else some (_sh_quote (.int g._depth)),
   if truthyStr g._branch then some "--branch" else none,
   if truthyStr g._branch then some (_sh_quote (.str (pyStrOpt g._branch)))
   else none,
   some (_sh_quote (.str g._repo)),
   some (_sh_quote (.str g._repodir))]

/-- The argument list of the fetch in `Gitget._checkout_commit`. -/
def _fetchArgs (g : Gitget) : List (Option String) :=
  [some "fetch", some "--depth", some "1", some "origin",
   some (_sh_quote (.str (pyStrOpt g._commit)))]

/-- The argument list of the checkout in `Gitget._checkout_commit`. -/
def _checkoutArgs (g : Gitget) : List (Option String) :=
  [some "checkout", some (_sh_quote (.str (pyStrOpt g._commit)))]

/-- The argument list of the log query in `Gitget._get_gitlog`. -/
def _logArgs : List (Option String) :=
  [some "log", some "-n", some "1",
   some "--pretty=%H%n%ct%n%s%n%an%n%aE%n%at"]

/-- The argument list of the branch query in `Gitget._get_gitlog`. -/
def _branchArgs : List (Option String) :=
  [some "branch", some "--show-current"]

/-- `Gitget._clone` issues the clone; its stdout is discarded.  The
trace component records the argument vectors handed to the subprocess
layer, in order. -/
def _clone (g : Gitget) (env : Env) :
    Except GitError Unit × List (List String) :=
  match g._run_command env g._cloneArgs with
  | .error e => (.error e, [g.fullCmd g._cloneArgs])
  | .ok _ => (.ok (), [g.fullCmd g._cloneArgs])

/-- `Gitget._checkout_commit`: fetch the commit at depth 1 from origin,
then check it out; an exception from the fetch aborts before the
checkout is attempted. -/
def _checkout_commit (g : Gitget) (env : Env) :
    Except GitError Unit × List (List String) :=
  match g._run_command env g._fetchArgs with
  | .error e => (.error e, [g.fullCmd g._fetchArgs])
  | .ok _ =>
    match g._run_command env g._checkoutArgs with
    | .error e => (.error e, [g.fullCmd g._fetchArgs, g.fullCmd g._checkoutArgs])
    | .ok _ => (.ok (), [g.fullCmd g._fetchArgs, g.fullCmd g._checkoutArgs])

/-- The pure parsing part of `Gitget._get_gitlog`: unpacks
`result.splitlines(keepends=False)` into the six fields (a mismatch
raises Python's unpacking `ValueError`, modelled as
`malformedLogOutput`), then derives `id_short` as the first seven
characters of the id and the two formatted dates. -/
def parseGitlogFields (branch : Option String) (raw : String) :
    Except GitError GitLog :=
  match splitlines raw with
  | [cid, cepoch, csubj, aname, aemail, aepoch] =>
    match _datetime_format (.str cepoch) with
    | none => .error (.valueError ("invalid literal for int with base 10: " ++ cepoch))
    | some cdate =>
      match pyInt aepoch with
      | none => .error (.valueError ("invalid literal for int with base 10: " ++ aepoch))
      | some ai =>
        match _datetime_format (.int ai) with
        | none => .error (.valueError aepoch)
        | some adate =>
          .ok { branch := branch, commit_id := cid, commit_epoch := cepoch,
                commit_subject := csubj,
                commit_id_short := cid.take 7, commit_date := cdate,
                author_name := aname, author_email := aemail,
                author_epoch := aepoch, author_date := adate }
  | ls => .error (.malformedLogOutput ls.length)

/-- Python's `str.rstrip()` (no argument): strips trailing whitespace. -/
def pyRstrip (s : String) : String :=
  String.mk (s.data.reverse.dropWhile isPySpace).reverse

/-- `Gitget._get_gitlog`: runs the log query, parses it, and—when no
branch was supplied (`if not self._branch:`, Python truthiness)—also
queries the current branch name. -/
def _get_gitlog (g : Gitget) (env : Env) :
    Except GitError Gitget × List (List String) :=
  match g._run_command env _logArgs with
  | .error e => (.error e, [g.fullCmd _logArgs])
  | .ok raw =>
    match parseGitlogFields g._branch raw with
    | .error e => (.error e, [g.fullCmd _logArgs])
    | .ok gl =>
      if truthyStr g._branch then
        (.ok { g with _gitlog := some gl }, [g.fullCmd _logArgs])
      else
        match g._run_command env _branchArgs with
        | .error e => (.error e, [g.fullCmd _logArgs, g.fullCmd _branchArgs])
        | .ok out =>
          (.ok { g with _gitlog := some { gl with branch := some (pyRstrip out) } },
           [g.fullCmd _logArgs, g.fullCmd _branchArgs])

/-- The directory handling at the top of `__enter__`: force-remove an
existing directory when `force` is set, then create it (parents,
`exist_ok`). -/
def ensureDir (g : Gitget) (fs : FS) : FS :=
  let fs1 := if fs.dirs.contains g._repodir ∧ g._force then removeDir fs g._repodir
             else fs
  addDir fs1 g._repodir

/-- `Gitget.__enter__`: directory setup, clone, optional
fetch-and-checkout of the requested commit (`if self._commit:`, Python
truthiness), then the log query.  The first exception propagates and no
later subcommand runs.  The returned trace lists the argument vectors
handed to the subprocess layer, in order. -/
def __enter__ (g : Gitget) (env : Env) (fs : FS) :
    Except GitError Gitget × FS × List (List String) :=
  let fs1 := ensureDir g fs
  match g._clone env with
  | (.error e, tr) => (.error e, fs1, tr)
  | (.ok _, tr0) =>
    if truthyStr g._commit then
      match g._checkout_commit env with
      | (.error e, tr) => (.error e, fs1, tr0 ++ tr)
      | (.ok _, tr) =>
        match g._get_gitlog env with
        | (r, tr2) => (r, fs1, tr0 ++ tr ++ tr2)
    else
      match g._get_gitlog env with
      | (r, tr2) => (r, fs1, tr0 ++ tr2)

/-- `Gitget.__exit__`: removes the working directory unless it is a
caller-supplied persistent directory (the exception arguments are
ignored by the source; on the exit paths where this runs, acquisition
has completed, so the directory exists and `shutil.rmtree` succeeds). -/
def __exit__ (g : Gitget) (fs : FS) : FS :=
  if g._repodir_perist then fs else removeDir fs g._repodir

/-- `Gitget.rmrepodir`: explicit removal, a no-op when the directory is
absent. -/
def rmrepodir (g : Gitget) (fs : FS) : FS :=
  if fs.dirs.contains g._repodir then removeDir fs g._repodir else fs

end Gitget

/-- Outcome of executing a `with Gitget(...) as g:` block. -/
inductive WithOutcome where
  | ok
  | bodyErr
  | enterErr (e : GitError)
deriving DecidableEq

/-- Python `with`-statement semantics applied to a constructed session:
`__enter__` runs first; if it raises, the exception propagates and
`__exit__` is NOT invoked (the context manager's exit method only runs
once entry has succeeded); otherwise the body runs (`bodyRaises` covers
an exception or an external cancellation inside the body) and
`__exit__` runs on every exit path of the body. -/
def withGitget (g : Gitget) (env : Gitget.Env) (fs : FS) (bodyRaises : Bool) :
    WithOutcome × FS :=
  match g.__enter__ env fs with
  | (.error e, fs1, _) => (.enterErr e, fs1)
  | (.ok g1, fs1, _) =>
    let fs2 := g1.__exit__ fs1
    (if bodyRaises then .bodyErr else .ok, fs2)

/-! ## Properties of the argument sanitizer -/

/-- A shell-special character is never in `shlex.quote`'s safe class. -/
theorem special_not_safe (c : Char) (h : shellSpecial c = true) :
    safeChar c = false := by
  have hmem : c ∈ spChars := by simpa [shellSpecial] using h
  fin_cases hmem <;> decide

/-- Inside single quotes, the escaped form of `l` followed by a closing
quote parses to `l` itself, continuing with whatever follows. -/
theorem parseTok_escSq (l k : List Char) :
    parseTok .inSq (escSq l ++ squote :: k) =
      Option.map (fun r => l ++ r) (parseTok .out k) := by
  induction l with
  | nil =>
    have step : parseTok .inSq (escSq [] ++ squote :: k) = parseTok .out k := rfl
    rw [step]
    cases parseTok .out k <;> rfl
  | cons c t ih =>
    by_cases hc : c = squote
    · subst hc
      have step : parseTok .inSq (escSq (squote :: t) ++ squote :: k) =
          Option.map (fun r => squote :: r)
            (parseTok .inSq (escSq t ++ squote :: k)) := rfl
      rw [step, ih]
      cases parseTok .out k <;> rfl
    · have step : escSq (c :: t) ++ squote :: k =
          c :: (escSq t ++ squote :: k) := by
        rw [escSq, if_neg hc]
        rfl
      rw [step, parseTok.eq_def]
      simp only [if_neg hc]
      rw [ih]
      cases parseTok .out k <;> rfl

/-- A word of safe characters is read back verbatim. -/
theorem parseTok_safe (l : List Char) (h : ∀ c ∈ l, safeChar c = true) :
    parseTok .out l = some l := by
  induction l with
  | nil => rfl
  | cons c t ih =>
    have hc := h c (List.mem_cons_self c t)
    have hs : shellSpecial c = false := by
      cases hsp : shellSpecial c
      · rfl
      · rw [special_not_safe c hsp] at hc
        exact absurd hc (by decide)
    have h1 : c ≠ squote := fun e => by rw [e] at hc; exact absurd hc (by decide)
    have h2 : c ≠ dquote := fun e => by rw [e] at hc; exact absurd hc (by decide)
    have h3 : c ≠ bslash := fun e => by rw [e] at hc; exact absurd hc (by decide)
    rw [parseTok, if_neg h1, if_neg h2, if_neg h3, hs,
      ih (fun d hd => h d (List.mem_cons_of_mem c hd))]
    rfl

/-- Re-reading `shlex.quote`'s output as one shell word recovers the
original string exactly. -/
theorem shlexQuote_roundtrip (s : String) :
    shellParseToken (shlexQuote s) = some s := by
  rcases s with ⟨l⟩
  by_cases h0 : l.isEmpty
  · have hl : l = [] := by simpa using h0
    subst hl
    rfl
  · by_cases h1 : l.all safeChar
    · have hsafe : parseTok .out l = some l :=
        parseTok_safe l (by simpa [List.all_eq_true] using h1)
      simp [shlexQuote, shellParseToken, h0, h1, hsafe]
    · have hq : parseTok .out (squote :: (escSq l ++ [squote])) = some l := by
        have step : parseTok .out (squote :: (escSq l ++ [squote])) =
            parseTok .inSq (escSq l ++ squote :: []) := rfl
        rw [step, parseTok_escSq]
        simp [parseTok]
      simp [shlexQuote, shellParseToken, h0, h1, hq]

/-- The character data of `shlex.quote`'s output is never empty. -/
theorem shlexQuote_data_ne_nil (s : String) : (shlexQuote s).data ≠ [] := by
  rw [shlexQuote]
  by_cases h0 : s.data.isEmpty
  · simp [h0]
  · by_cases h1 : s.data.all safeChar
    · simp only [h0, h1, Bool.false_eq_true, if_false, if_true]
      simpa using h0
    · simp [h0, h1]

/-- `shlex.quote` never returns the empty string. -/
theorem sh_quote_ne_empty (a : Scalar) : Gitget._sh_quote a ≠ "" := by
  intro h
  refine shlexQuote_data_ne_nil (pyStr a) ?_
  rw [Gitget._sh_quote] at h
  rw [h]

/-- C7: for every scalar value (string or integer), re-parsing
`Quote(value)` under shell quoting rules yields exactly the original
value's string form; in particular the input `quote ; ls slash ; echo`
(a single-quote character followed by `; ls /; echo`) quotes to the
form: two quotes, a double-quoted quote, then `; ls /; echo` and a
closing quote — the exact 19-character output shown in the spec. -/
theorem quote_roundtrip :
    (∀ a : Scalar, shellParseToken (Gitget._sh_quote a) = some (pyStr a)) ∧
    Gitget._sh_quote
        (.str (String.mk [squote, ';', ' ', 'l', 's', ' ', '/', ';', ' ',
          'e', 'c', 'h', 'o'])) =
      String.mk [squote, squote, dquote, squote, dquote, squote, ';', ' ',
        'l', 's', ' ', '/', ';', ' ', 'e', 'c', 'h', 'o', squote] :=
  ⟨fun a => shlexQuote_roundtrip (pyStr a), by decide⟩

/-! ## Properties of the commit-log parser -/

/-- C5: for every log-query output consisting of fewer than six
newline-separated lines, parsing fails with the malformed-log-output
error (the distinguished error kind for a log query that succeeded but
whose output did not parse into the expected six fields). -/
theorem parse_log_too_few_lines (branch : Option String) (raw : String)
    (h : (splitlines raw).length < 6) :
    Gitget.parseGitlogFields branch raw =
      .error (.malformedLogOutput (splitlines raw).length) := by
  rcases hls : splitlines raw with _ | ⟨a, _ | ⟨b, _ | ⟨c, _ | ⟨d, _ | ⟨e, ls6⟩⟩⟩⟩⟩
  · simp [Gitget.parseGitlogFields, hls]
  · simp [Gitget.parseGitlogFields, hls]
  · simp [Gitget.parseGitlogFields, hls]
  · simp [Gitget.parseGitlogFields, hls]
  · simp [Gitget.parseGitlogFields, hls]
  · rw [hls] at h
    have h6 : ls6 = [] := by
      cases ls6 with
      | nil => rfl
      | cons x xs => simp at h; omega
    subst h6
    simp [Gitget.parseGitlogFields, hls]

/-- Closed witness for `parse_log_too_few_lines` at a two-line output. -/
theorem parse_log_too_few_lines_witness :
    (splitlines "a\nb").length < 6 ∧
    Gitget.parseGitlogFields none "a\nb" =
      .error (.malformedLogOutput (splitlines "a\nb").length) :=
  ⟨by decide, parse_log_too_few_lines none "a\nb" (by decide)⟩

/-- A sample well-formed six-line log output ending in a newline. -/
def sampleLog : String :=
  "abcdef1234567890abcdef1234567890abcdef12\n1234567890\nFix bug\nJane Doe\njane@x.com\n1234567890\n"

/-- C6: for every well-formed six-line log output (full commit id,
commit epoch seconds, subject, author name, author email, author epoch
seconds, in that order), parsing yields `id_short` equal to the first 7
characters of the commit id, and `commit.date` and `author.date` equal
to the UTC formatting of the respective epoch as
`YYYY-MM-DDTHH:MM:SSZ`; in particular epoch `1234567890` formats to
`2009-02-13T23:31:30Z`. -/
theorem parse_log_wellformed :
    (∀ (branch : Option String)
       (raw cid cepoch csubj aname aemail aepoch : String) (nce nae : Int),
       splitlines raw = [cid, cepoch, csubj, aname, aemail, aepoch] →
       pyInt cepoch = some nce → pyInt aepoch = some nae →
       Gitget.parseGitlogFields branch raw =
         .ok { branch := branch, commit_id := cid, commit_epoch := cepoch,
               commit_subject := csubj, commit_id_short := cid.take 7,
               commit_date := formatUTC nce, author_name := aname,
               author_email := aemail, author_epoch := aepoch,
               author_date := formatUTC nae }) ∧
    Gitget._datetime_format (.int 1234567890) = some "2009-02-13T23:31:30Z" := by
  constructor
  · intro branch raw cid cepoch csubj aname aemail aepoch nce nae hls h1 h2
    simp [Gitget.parseGitlogFields, hls, Gitget._datetime_format, h1, h2]
  · decide

/-- Closed witness for `parse_log_wellformed` at `sampleLog`: the id is
shortened to its first seven characters and both epochs format to the
spec's example timestamp. -/
theorem parse_log_wellformed_witness :
    splitlines sampleLog =
      ["abcdef1234567890abcdef1234567890abcdef12", "1234567890", "Fix bug",
       "Jane Doe", "jane@x.com", "1234567890"] ∧
    Gitget.parseGitlogFields none sampleLog =
      .ok { branch := none,
            commit_id := "abcdef1234567890abcdef1234567890abcdef12",
            commit_epoch := "1234567890", commit_subject := "Fix bug",
            commit_id_short := "abcdef1",
            commit_date := "2009-02-13T23:31:30Z",
            author_name := "Jane Doe", author_email := "jane@x.com",
            author_epoch := "1234567890",
            author_date := "2009-02-13T23:31:30Z" } := by
  refine ⟨by decide, ?_⟩
  have h := parse_log_wellformed.1 none sampleLog
    "abcdef1234567890abcdef1234567890abcdef12" "1234567890" "Fix bug"
    "Jane Doe" "jane@x.com" "1234567890" 1234567890 1234567890
    (by decide) (by decide) (by decide)
  rw [h]
  decide

/-! ## Properties of construction -/

/-- Sample settings for concrete instantiations. -/
def sampleSettings : Settings :=
  { GITGET_SSL_VERIFY := "True", GITGET_PROXY := "None", GITGET_TIMEOUT := 120 }

/-- An empty filesystem. -/
def emptyFS : FS := { dirs := [], counter := 0 }

/-- A request whose commit id is 41 characters long. -/
def reqLongCommit : GitgetRequest :=
  { repository := "https://example.com/repo",
    commit := some (String.mk (List.replicate 41 'a')),
    repodir := some "/srv/work" }

/-- C1 counterexample: the source only rejects commits that are truthy
and shorter than 40 characters (`if commit and len(commit) < 40`), so a
41-character commit — whose length is not exactly 40 — is accepted and
construction succeeds. -/
theorem commit_length_over40_accepted :
    (String.mk (List.replicate 41 'a')).length ≠ 40 ∧
    (Gitget.init reqLongCommit sampleSettings emptyFS).isOk = true := by
  decide

/-- C1 (amended): for a request with non-negative depth, construction
fails with the InvalidArgument `ValueError` — before any filesystem
allocation — precisely when the commit is supplied, non-empty and
shorter than 40 characters; when the commit is absent, empty, or at
least 40 characters long, construction succeeds with respect to this
check. -/
theorem commit_length_validation (req : GitgetRequest) (st : Settings)
    (fs : FS) (hd : 0 ≤ req.depth) :
    (truthyStr req.commit = true ∧ (req.commit.getD "").length < 40 →
      Gitget.init req st fs = .error (.valueError
        "commit id is too short. full commit id is required, abreviated (7 char) format is not supported.")) ∧
    (¬(truthyStr req.commit = true ∧ (req.commit.getD "").length < 40) →
      (Gitget.init req st fs).isOk = true) := by
  have hd' : ¬ req.depth < 0 := by omega
  constructor
  · intro h
    rw [Gitget.init, if_neg hd', if_pos h]
  · intro h
    rw [Gitget.init, if_neg hd', if_neg h]
    by_cases h3 : truthyStr req.repodir = true
    · rw [if_pos h3]
      rfl
    · rw [if_neg h3]
      rfl

/-- Closed witness for `commit_length_validation`: a three-character
commit id is rejected at construction time. -/
theorem commit_length_validation_witness :
    0 ≤ ({ repository := "r", commit := some "abc" } : GitgetRequest).depth ∧
    Gitget.init { repository := "r", commit := some "abc" } sampleSettings
        emptyFS =
      .error (.valueError
        "commit id is too short. full commit id is required, abreviated (7 char) format is not supported.") :=
  ⟨by decide,
   (commit_length_validation { repository := "r", commit := some "abc" }
     sampleSettings emptyFS (by decide)).1 ⟨by decide, by decide⟩⟩

/-- A request with no caller-supplied target directory. -/
def reqOwnedDir : GitgetRequest := { repository := "https://example.com/repo" }

/-- The filesystem after constructing `reqOwnedDir` on `emptyFS`. -/
def fsAfterInit : FS := { dirs := ["/tmp/tmp0.ninja.git"], counter := 1 }

/-- The session produced by constructing `reqOwnedDir` on `emptyFS`. -/
def gOwnedSample : Gitget :=
  { _depth := 1, _branch := none, _commit := none,
    _repo := "https://example.com/repo", _repodir := "/tmp/tmp0.ninja.git",
    _repodir_perist := false, _force := false, _gitlog := none,
    settings := sampleSettings }

/-- C4 counterexample: constructing a session without a caller-supplied
target directory calls `mkdtemp`, which creates the temporary working
directory on disk before acquisition — the filesystem after
construction differs from the one before. -/
theorem construction_creates_tempdir :
    Except.map (fun p => p.2)
        (Gitget.init reqOwnedDir sampleSettings emptyFS) = .ok fsAfterInit ∧
    fsAfterInit.dirs ≠ emptyFS.dirs := by
  decide

/-- C4 (amended): construction touches no disk when a target directory
was supplied; otherwise its only filesystem effect is the creation of
the fresh session-owned temporary working directory. -/
theorem construction_disk_effect (req : GitgetRequest) (st : Settings)
    (fs : FS) (g : Gitget) (fs' : FS)
    (h : Gitget.init req st fs = .ok (g, fs')) :
    (truthyStr req.repodir = true → fs' = fs) ∧
    (truthyStr req.repodir = false →
      fs'.dirs = g._repodir :: fs.dirs ∧ fs'.counter = fs.counter + 1) := by
  rw [Gitget.init] at h
  by_cases h1 : req.depth < 0
  · rw [if_pos h1] at h
    exact absurd h (by simp)
  · rw [if_neg h1] at h
    by_cases h2 : truthyStr req.commit = true ∧ (req.commit.getD "").length < 40
    · rw [if_pos h2] at h
      exact absurd h (by simp)
    · rw [if_neg h2] at h
      by_cases h3 : truthyStr req.repodir = true
      · rw [if_pos h3] at h
        injection h with hp
        injection hp with hg hfs
        refine ⟨fun _ => hfs.symm, fun hf => ?_⟩
        rw [h3] at hf
        exact absurd hf (by simp)
      · have h3' : truthyStr req.repodir = false := by
          cases ht : truthyStr req.repodir
          · rfl
          · exact absurd ht h3
        rw [if_neg h3] at h
        injection h with hp
        injection hp with hg hfs
        subst hg
        subst hfs
        refine ⟨fun ht => ?_, fun _ => ⟨rfl, rfl⟩⟩
        rw [h3'] at ht
        exact absurd ht (by simp)

/-- Closed witness for `construction_disk_effect`: constructing
`reqOwnedDir` adds exactly the fresh temporary directory. -/
theorem construction_disk_effect_witness :
    Gitget.init reqOwnedDir sampleSettings emptyFS =
      .ok (gOwnedSample, fsAfterInit) ∧
    fsAfterInit.dirs = gOwnedSample._repodir :: emptyFS.dirs ∧
    fsAfterInit.counter = emptyFS.counter + 1 :=
  ⟨by decide,
   (construction_disk_effect reqOwnedDir sampleSettings emptyFS gOwnedSample
     fsAfterInit (by decide)).2 (by decide)⟩

/-! ## Properties of the session lifecycle -/

/-- `mkdir(exist_ok=True)` leaves the target present. -/
theorem addDir_mem (fs : FS) (p : String) : p ∈ (addDir fs p).dirs := by
  rw [addDir]
  by_cases h : fs.dirs.contains p
  · rw [if_pos h]
    simpa using h
  · rw [if_neg h]
    exact List.mem_cons_self p fs.dirs

/-- `rmtree` leaves the target absent. -/
theorem removeDir_not_mem (fs : FS) (p : String) :
    p ∉ (removeDir fs p).dirs := by
  rw [removeDir]
  intro h
  simp at h

/-- After the directory setup of `__enter__`, the working directory
exists. -/
theorem ensureDir_mem (g : Gitget) (fs : FS) :
    g._repodir ∈ (g.ensureDir fs).dirs := by
  rw [Gitget.ensureDir]
  exact addDir_mem _ g._repodir

/-- `__enter__` only changes the filesystem in its directory-setup step:
on every path (success or failure of any subcommand) the filesystem
component of the result is `ensureDir`. -/
theorem enter_fs (g : Gitget) (env : Gitget.Env) (fs : FS) :
    (g.__enter__ env fs).2.1 = g.ensureDir fs := by
  rw [Gitget.__enter__]
  rcases hc : g._clone env with ⟨rc, trc⟩
  cases rc with
  | error e => simp [hc]
  | ok u =>
    by_cases hcm : truthyStr g._commit = true
    · rcases hk : g._checkout_commit env with ⟨rk, trk⟩
      cases rk with
      | error e => simp [hc, hcm, hk]
      | ok u2 =>
        rcases hg : g._get_gitlog env with ⟨rg, trg⟩
        simp [hc, hcm, hk, hg]
    · rcases hg : g._get_gitlog env with ⟨rg, trg⟩
      simp [hc, hcm, hg]

/-- C2 (amended): once acquisition has succeeded, release runs on every
exit path of the body (normal return, error, external cancellation) and
the working directory is removed exactly when it is session-owned (no
caller-supplied `targetDirectory`), while a caller-supplied directory is
left intact; but when acquisition itself fails — including after the
working directory has been created — Python never invokes `__exit__`,
so release does not run and the directory (still present from the
directory-setup step) is left on disk. -/
theorem release_behavior (g : Gitget) (env : Gitget.Env) (fs : FS)
    (br : Bool) :
    (∀ g1 fs1 tr, g.__enter__ env fs = (.ok g1, fs1, tr) →
       (withGitget g env fs br).1 = (if br then .bodyErr else .ok) ∧
       (withGitget g env fs br).2 = g1.__exit__ fs1 ∧
       (g1._repodir_perist = false →
          g1._repodir ∉ (withGitget g env fs br).2.dirs) ∧
       (g1._repodir_perist = true → (withGitget g env fs br).2 = fs1)) ∧
    (∀ e fs1 tr, g.__enter__ env fs = (.error e, fs1, tr) →
       withGitget g env fs br = (.enterErr e, fs1) ∧
       g._repodir ∈ fs1.dirs) := by
  constructor
  · intro g1 fs1 tr h
    have hw : withGitget g env fs br =
        ((if br then .bodyErr else .ok), g1.__exit__ fs1) := by
      rw [withGitget, h]
    refine ⟨by rw [hw], by rw [hw], ?_, ?_⟩
    · intro hper
      rw [hw]
      show g1._repodir ∉ (g1.__exit__ fs1).dirs
      rw [Gitget.__exit__, hper]
      simpa using removeDir_not_mem fs1 g1._repodir
    · intro hper
      rw [hw]
      show g1.__exit__ fs1 = fs1
      rw [Gitget.__exit__, hper]
      simp
  · intro e fs1 tr h
    constructor
    · rw [withGitget, h]
    · have hfs := enter_fs g env fs
      rw [h] at hfs
      have hfs' : fs1 = g.ensureDir fs := hfs
      rw [hfs']
      exact ensureDir_mem g fs

/-- An oracle under which every subprocess invocation succeeds, the log
query printing `sampleLog` and everything else printing nothing. -/
def envHappy : Gitget.Env := fun c =>
  if c.get? 5 = some "log" then .success sampleLog else .success ""

/-- The session handle returned by a successful `envHappy` session of
`gOwnedSample`. -/
def gHappy : Gitget :=
  { gOwnedSample with
    _gitlog := some
      { branch := some "",
        commit_id := "abcdef1234567890abcdef1234567890abcdef12",
        commit_epoch := "1234567890", commit_subject := "Fix bug",
        commit_id_short := "abcdef1", commit_date := "2009-02-13T23:31:30Z",
        author_name := "Jane Doe", author_email := "jane@x.com",
        author_epoch := "1234567890",
        author_date := "2009-02-13T23:31:30Z" } }

/-- The subcommand trace of a successful `envHappy` session of
`gOwnedSample`. -/
def happyTrace : List (List String) :=
  [["git", "-c", "http.sslVerify=True", "-c", "http.proxy=None", "clone",
    "--depth", "1", "https://example.com/repo", "/tmp/tmp0.ninja.git"],
   ["git", "-c", "http.sslVerify=True", "-c", "http.proxy=None", "log",
    "-n", "1", "--pretty=%H%n%ct%n%s%n%an%n%aE%n%at"],
   ["git", "-c", "http.sslVerify=True", "-c", "http.proxy=None", "branch",
    "--show-current"]]

/-- Closed witness for `release_behavior`: a successful session over a
session-owned directory removes it on release. -/
theorem release_behavior_witness :
    gOwnedSample.__enter__ envHappy fsAfterInit =
      (.ok gHappy, fsAfterInit, happyTrace) ∧
    gHappy._repodir_perist = false ∧
    gHappy._repodir ∉ (withGitget gOwnedSample envHappy fsAfterInit false).2.dirs :=
  ⟨by decide, by decide,
   ((release_behavior gOwnedSample envHappy fsAfterInit false).1 gHappy
     fsAfterInit happyTrace (by decide)).2.2.1 (by decide)⟩

/-- An oracle under which every subprocess invocation exits with a
non-zero status. -/
def envAllFail : Gitget.Env := fun _ => .fail 128 "fatal: repository not found"

/-- C2 counterexample: when the clone fails, `__enter__` raises, Python
does not invoke `__exit__`, and the session-owned working directory
created during the failed acquisition remains on disk — release did not
run on this exit path. -/
theorem release_skipped_on_failed_acquire :
    gOwnedSample._repodir_perist = false ∧
    ((withGitget gOwnedSample envAllFail emptyFS false).2.dirs.contains
      gOwnedSample._repodir) = true := by
  decide

/-! ## Properties of the issued commands -/

/-- The issued clone command: transport options, `clone`, the optional
depth pair, the optional branch pair, then the quoted repository and
target directory. -/
theorem cloneCmd_shape (g : Gitget) :
    g.fullCmd g._cloneArgs =
      g._gitcmd ++ "clone" ::
        ((if g._depth = 0 then []
          else ["--depth", Gitget._sh_quote (.int g._depth)]) ++
         (if truthyStr g._branch then
            ["--branch", Gitget._sh_quote (.str (pyStrOpt g._branch))]
          else []) ++
         [Gitget._sh_quote (.str g._repo),
          Gitget._sh_quote (.str g._repodir)]) := by
  rw [Gitget.fullCmd, Gitget._cloneArgs]
  congr 1
  by_cases hd : g._depth = 0 <;> by_cases hb : truthyStr g._branch = true <;>
    simp [Gitget.pyFilter, hd, hb, sh_quote_ne_empty]

/-- C8 (amended): for every session, the clone subcommand is issued with
the argument shape `clone [--depth n] [--branch name] repository
targetDirectory`, preceded by the two fixed global transport options
(TLS-verification toggle and proxy setting); the depth pair is omitted
exactly when depth is 0, and the branch pair is omitted exactly when the
branch is absent or the empty string (Python truthiness), the values
being delivered in sanitized form. -/
theorem clone_command_shape (g : Gitget) :
    g._gitcmd = ["git",
      "-c", "http.sslVerify=" ++ g.settings.GITGET_SSL_VERIFY,
      "-c", "http.proxy=" ++ g.settings.GITGET_PROXY] ∧
    g.fullCmd g._cloneArgs =
      g._gitcmd ++ "clone" ::
        ((if g._depth = 0 then []
          else ["--depth", Gitget._sh_quote (.int g._depth)]) ++
         (if truthyStr g._branch then
            ["--branch", Gitget._sh_quote (.str (pyStrOpt g._branch))]
          else []) ++
         [Gitget._sh_quote (.str g._repo),
          Gitget._sh_quote (.str g._repodir)]) :=
  ⟨rfl, cloneCmd_shape g⟩

/-- A session whose branch was supplied as the empty string. -/
def gEmptyBranch : Gitget := { gOwnedSample with _branch := some "" }

/-- C8 counterexample: a supplied-but-empty branch is a given branch
whose `--branch` pair is nevertheless omitted from the issued clone
command, because the source tests Python truthiness
(`self._branch and "--branch" or None`), not presence. -/
theorem clone_empty_branch_omitted :
    gEmptyBranch._branch.isSome = true ∧
    ((gEmptyBranch.fullCmd gEmptyBranch._cloneArgs).contains "--branch") =
      false := by
  decide

/-- C10: the repository, directory and commit tokens delivered to the
executable are the sanitized forms of the caller's values — the process
being invoked without a shell, a value that quoting changes (such as
`a b`, which quotes to a single-quoted form) is delivered quoted, not
verbatim; only values left unchanged by quoting reach the executable
verbatim. -/
theorem quoted_tokens_delivered (g : Gitget) :
    g.fullCmd g._cloneArgs =
      g._gitcmd ++ "clone" ::
        ((if g._depth = 0 then []
          else ["--depth", Gitget._sh_quote (.int g._depth)]) ++
         (if truthyStr g._branch then
            ["--branch", Gitget._sh_quote (.str (pyStrOpt g._branch))]
          else []) ++
         [Gitget._sh_quote (.str g._repo),
          Gitget._sh_quote (.str g._repodir)]) ∧
    g.fullCmd g._fetchArgs =
      g._gitcmd ++ ["fetch", "--depth", "1", "origin",
        Gitget._sh_quote (.str (pyStrOpt g._commit))] ∧
    g.fullCmd g._checkoutArgs =
      g._gitcmd ++ ["checkout", Gitget._sh_quote (.str (pyStrOpt g._commit))] ∧
    Gitget._sh_quote (.str "a b") =
      String.mk [squote, 'a', Char.ofNat 32, 'b', squote] ∧
    Gitget._sh_quote (.str "a b") ≠ "a b" := by
  refine ⟨cloneCmd_shape g, ?_, ?_, by decide, by decide⟩
  · rw [Gitget.fullCmd, Gitget._fetchArgs]
    congr 1
    simp [Gitget.pyFilter, sh_quote_ne_empty]
  · rw [Gitget.fullCmd, Gitget._checkoutArgs]
    congr 1
    simp [Gitget.pyFilter, sh_quote_ne_empty]

/-! ## Failure classification and sequencing -/

/-- C3: whenever any subcommand returns a non-success status or exceeds
the configured timeout, `_run_command` raises the checkout-failed error
wrapping the classification (process error with captured standard-error
text, or timeout), and the session attempts no further subcommand after
the failure: the session aborts right after the failing stage, with the
trace ending at the failed invocation. -/
theorem subcommand_failure_aborts_session (g : Gitget) (env : Gitget.Env)
    (fs : FS) :
    (∀ cmd rc st, env (g.fullCmd cmd) = .fail rc st →
       g._run_command env cmd = .error (.checkoutFailed
         ("Gitget failed due to exception:CalledProcessError, STDERR: " ++
           Gitget.replaceNl st))) ∧
    (∀ cmd st, env (g.fullCmd cmd) = .timeout st →
       g._run_command env cmd = .error (.checkoutFailed
         ("Gitget failed due to exception:TimeoutExpired, STDERR: " ++ st))) ∧
    (∀ e, g._run_command env g._cloneArgs = .error e →
       g.__enter__ env fs =
         (.error e, g.ensureDir fs, [g.fullCmd g._cloneArgs])) ∧
    (∀ e, (∃ out, g._run_command env g._cloneArgs = .ok out) →
       truthyStr g._commit = true →
       g._run_command env g._fetchArgs = .error e →
       g.__enter__ env fs = (.error e, g.ensureDir fs,
         [g.fullCmd g._cloneArgs, g.fullCmd g._fetchArgs])) ∧
    (∀ e, (∃ out, g._run_command env g._cloneArgs = .ok out) →
       truthyStr g._commit = true →
       (∃ out, g._run_command env g._fetchArgs = .ok out) →
       g._run_command env g._checkoutArgs = .error e →
       g.__enter__ env fs = (.error e, g.ensureDir fs,
         [g.fullCmd g._cloneArgs, g.fullCmd g._fetchArgs,
          g.fullCmd g._checkoutArgs])) ∧
    (∀ e, (∃ out, g._run_command env g._cloneArgs = .ok out) →
       truthyStr g._commit = false →
       g._run_command env Gitget._logArgs = .error e →
       g.__enter__ env fs = (.error e, g.ensureDir fs,
         [g.fullCmd g._cloneArgs, g.fullCmd Gitget._logArgs])) ∧
    (∀ e, (∃ out, g._run_command env g._cloneArgs = .ok out) →
       truthyStr g._commit = true →
       (∃ out, g._run_command env g._fetchArgs = .ok out) →
       (∃ out, g._run_command env g._checkoutArgs = .ok out) →
       g._run_command env Gitget._logArgs = .error e →
       g.__enter__ env fs = (.error e, g.ensureDir fs,
         [g.fullCmd g._cloneArgs, g.fullCmd g._fetchArgs,
          g.fullCmd g._checkoutArgs, g.fullCmd Gitget._logArgs])) := by
  refine ⟨?_, ?_, ?_, ?_, ?_, ?_, ?_⟩
  · intro cmd rc st h
    rw [Gitget._run_command, h]
  · intro cmd st h
    rw [Gitget._run_command, h]
  · intro e h
    have hc : g._clone env = (.error e, [g.fullCmd g._cloneArgs]) := by
      rw [Gitget._clone, h]
    simp [Gitget.__enter__, hc]
  · intro e hok hcm h
    obtain ⟨out, hclone⟩ := hok
    have hc : g._clone env = (.ok (), [g.fullCmd g._cloneArgs]) := by
      rw [Gitget._clone, hclone]
    have hk : g._checkout_commit env = (.error e, [g.fullCmd g._fetchArgs]) := by
      rw [Gitget._checkout_commit, h]
    simp [Gitget.__enter__, hc, hcm, hk]
  · intro e hok hcm hok2 h
    obtain ⟨out, hclone⟩ := hok
    obtain ⟨out2, hfetch⟩ := hok2
    have hc : g._clone env = (.ok (), [g.fullCmd g._cloneArgs]) := by
      rw [Gitget._clone, hclone]
    have hk : g._checkout_commit env =
        (.error e, [g.fullCmd g._fetchArgs, g.fullCmd g._checkoutArgs]) := by
      rw [Gitget._checkout_commit, hfetch, h]
    simp [Gitget.__enter__, hc, hcm, hk]
  · intro e hok hcm h
    obtain ⟨out, hclone⟩ := hok
    have hc : g._clone env = (.ok (), [g.fullCmd g._cloneArgs]) := by
      rw [Gitget._clone, hclone]
    have hg : g._get_gitlog env = (.error e, [g.fullCmd Gitget._logArgs]) := by
      rw [Gitget._get_gitlog, h]
    simp [Gitget.__enter__, hc, hcm, hg]
  · intro e hok hcm hok2 hok3 h
    obtain ⟨out, hclone⟩ := hok
    obtain ⟨out2, hfetch⟩ := hok2
    obtain ⟨out3, hcheckout⟩ := hok3
    have hc : g._clone env = (.ok (), [g.fullCmd g._cloneArgs]) := by
      rw [Gitget._clone, hclone]
    have hk : g._checkout_commit env =
        (.ok (), [g.fullCmd g._fetchArgs, g.fullCmd g._checkoutArgs]) := by
      rw [Gitget._checkout_commit, hfetch, hcheckout]
    have hg : g._get_gitlog env = (.error e, [g.fullCmd Gitget._logArgs]) := by
      rw [Gitget._get_gitlog, h]
    simp [Gitget.__enter__, hc, hcm, hk, hg]

/-- Closed witness for `subcommand_failure_aborts_session`: a failing
clone aborts the session with the wrapped process error and a one-entry
trace. -/
theorem subcommand_failure_aborts_session_witness :
    gOwnedSample._run_command envAllFail gOwnedSample._cloneArgs =
      .error (.checkoutFailed
        "Gitget failed due to exception:CalledProcessError, STDERR: fatal: repository not found") ∧
    gOwnedSample.__enter__ envAllFail emptyFS =
      (.error (.checkoutFailed
        "Gitget failed due to exception:CalledProcessError, STDERR: fatal: repository not found"),
       gOwnedSample.ensureDir emptyFS,
       [gOwnedSample.fullCmd gOwnedSample._cloneArgs]) :=
  ⟨by decide,
   (subcommand_failure_aborts_session gOwnedSample envAllFail emptyFS).2.2.1
     _ (by decide)⟩

/-! ## Sequencing of the commit fetch and checkout -/

/-- The subcommand name of a full argument vector: the element after the
five-element transport prelude. -/
def subcmd (c : List String) : Option String := (c.drop 5).head?

/-- The clone vector carries the `clone` subcommand. -/
theorem subcmd_clone (g : Gitget) :
    subcmd (g.fullCmd g._cloneArgs) = some "clone" := rfl

/-- The fetch vector carries the `fetch` subcommand. -/
theorem subcmd_fetch (g : Gitget) :
    subcmd (g.fullCmd g._fetchArgs) = some "fetch" := rfl

/-- The checkout vector carries the `checkout` subcommand. -/
theorem subcmd_checkout (g : Gitget) :
    subcmd (g.fullCmd g._checkoutArgs) = some "checkout" := rfl

/-- The log vector carries the `log` subcommand. -/
theorem subcmd_log (g : Gitget) :
    subcmd (g.fullCmd Gitget._logArgs) = some "log" := rfl

/-- The branch-query vector carries the `branch` subcommand. -/
theorem subcmd_branch (g : Gitget) :
    subcmd (g.fullCmd Gitget._branchArgs) = some "branch" := rfl

/-- `_clone` issues exactly one invocation. -/
theorem clone_trace (g : Gitget) (env : Gitget.Env) :
    (g._clone env).2 = [g.fullCmd g._cloneArgs] := by
  rw [Gitget._clone]
  rcases hc : g._run_command env g._cloneArgs with e | o <;> simp [hc]

/-- `_checkout_commit` issues the fetch, then at most the checkout. -/
theorem checkout_commit_trace (g : Gitget) (env : Gitget.Env) :
    (g._checkout_commit env).2 = [g.fullCmd g._fetchArgs] ∨
    (g._checkout_commit env).2 =
      [g.fullCmd g._fetchArgs, g.fullCmd g._checkoutArgs] := by
  rw [Gitget._checkout_commit]
  rcases hf : g._run_command env g._fetchArgs with e | o
  · left
    simp [hf]
  · rcases hco : g._run_command env g._checkoutArgs with e | o2
    · right
      simp [hf, hco]
    · right
      simp [hf, hco]

/-- When the fetch succeeds, `_checkout_commit` issues the fetch and the
checkout, in that order. -/
theorem checkout_commit_fetch_ok (g : Gitget) (env : Gitget.Env)
    (o : String) (h : g._run_command env g._fetchArgs = .ok o) :
    (g._checkout_commit env).2 =
      [g.fullCmd g._fetchArgs, g.fullCmd g._checkoutArgs] := by
  rw [Gitget._checkout_commit, h]
  rcases hco : g._run_command env g._checkoutArgs with e | o2 <;> simp [hco]

/-- `_get_gitlog` issues the log query and at most the branch query. -/
theorem get_gitlog_trace (g : Gitget) (env : Gitget.Env) :
    (g._get_gitlog env).2 = [g.fullCmd Gitget._logArgs] ∨
    (g._get_gitlog env).2 =
      [g.fullCmd Gitget._logArgs, g.fullCmd Gitget._branchArgs] := by
  rw [Gitget._get_gitlog]
  rcases hl : g._run_command env Gitget._logArgs with e | raw
  · left
    simp [hl]
  · rcases hp : Gitget.parseGitlogFields g._branch raw with e | gl
    · left
      simp [hl, hp]
    · by_cases hb : truthyStr g._branch = true
      · left
        simp [hl, hp, hb]
      · rcases hbr : g._run_command env Gitget._branchArgs with e | out
        · right
          simp [hl, hp, hb, hbr]
        · right
          simp [hl, hp, hb, hbr]

/-- The trace of `__enter__` when a truthy commit was requested and the
clone succeeded: the clone, then the fetch-and-checkout trace, then —
only if the latter succeeded — the log-query trace. -/
theorem enter_trace_commit (g : Gitget) (env : Gitget.Env) (fs : FS)
    (out : String) (hcm : truthyStr g._commit = true)
    (hclone : g._run_command env g._cloneArgs = .ok out) :
    (g.__enter__ env fs).2.2 =
      g.fullCmd g._cloneArgs ::
        ((g._checkout_commit env).2 ++
          (match (g._checkout_commit env).1 with
           | .error _ => []
           | .ok _ => (g._get_gitlog env).2)) := by
  have hc : g._clone env = (.ok (), [g.fullCmd g._cloneArgs]) := by
    rw [Gitget._clone, hclone]
  rw [Gitget.__enter__]
  rcases hk : g._checkout_commit env with ⟨rk, trk⟩
  cases rk with
  | error e => simp [hc, hcm, hk]
  | ok u =>
    rcases hgl : g._get_gitlog env with ⟨rg, trg⟩
    simp [hc, hcm, hk, hgl]

/-- The trace of `__enter__` when no truthy commit was requested: the
clone alone (clone failure) or the clone followed by the log-query
trace. -/
theorem enter_trace_nocommit (g : Gitget) (env : Gitget.Env) (fs : FS)
    (hcm : truthyStr g._commit = false) :
    (g.__enter__ env fs).2.2 = [g.fullCmd g._cloneArgs] ∨
    (g.__enter__ env fs).2.2 =
      g.fullCmd g._cloneArgs :: (g._get_gitlog env).2 := by
  rw [Gitget.__enter__]
  rcases hc : g._clone env with ⟨rc, trc⟩
  have htrc : trc = [g.fullCmd g._cloneArgs] := by
    have := clone_trace g env
    rw [hc] at this
    exact this
  subst htrc
  cases rc with
  | error e =>
    left
    simp [hc, hcm]
  | ok u =>
    right
    rcases hgl : g._get_gitlog env with ⟨rg, trg⟩
    simp [hc, hcm, hgl]

/-- C9 (amended): whenever a truthy (non-empty) commit was requested and
the clone succeeded, the session issues the fetch of that commit right
after the clone and — exactly when the fetch succeeded — the checkout
right after the fetch, each at most once and with no retry; when the
requested commit is absent or the empty string, neither a fetch nor a
checkout is ever issued. -/
theorem commit_fetch_checkout_sequence (g : Gitget) (env : Gitget.Env)
    (fs : FS) :
    (truthyStr g._commit = true →
      ∀ out, g._run_command env g._cloneArgs = .ok out →
        ((g.__enter__ env fs).2.2.take 2 =
            [g.fullCmd g._cloneArgs, g.fullCmd g._fetchArgs] ∧
         ((g.__enter__ env fs).2.2.map subcmd).count (some "fetch") = 1 ∧
         ((g.__enter__ env fs).2.2.map subcmd).count (some "checkout") ≤ 1 ∧
         (∀ o2, g._run_command env g._fetchArgs = .ok o2 →
            (g.__enter__ env fs).2.2.take 3 =
              [g.fullCmd g._cloneArgs, g.fullCmd g._fetchArgs,
               g.fullCmd g._checkoutArgs]) ∧
         (∀ e, g._run_command env g._fetchArgs = .error e →
            (g.__enter__ env fs).2.2 =
              [g.fullCmd g._cloneArgs, g.fullCmd g._fetchArgs]))) ∧
    (truthyStr g._commit = false →
      ∀ c ∈ (g.__enter__ env fs).2.2,
        subcmd c ≠ some "fetch" ∧ subcmd c ≠ some "checkout") := by
  constructor
  · intro hcm out hclone
    have htr := enter_trace_commit g env fs out hcm hclone
    refine ⟨?_, ?_, ?_, ?_, ?_⟩
    · rw [htr]
      rcases checkout_commit_trace g env with h2 | h2 <;> rw [h2] <;> simp
    · rcases hk1 : (g._checkout_commit env).1 with e | u
      · rcases checkout_commit_trace g env with h2 | h2 <;>
          simp [htr, hk1, h2, subcmd_clone, subcmd_fetch, subcmd_checkout,
            List.count_cons]
      · rcases get_gitlog_trace g env with h3 | h3 <;>
          rcases checkout_commit_trace g env with h2 | h2 <;>
            simp [htr, hk1, h2, h3, subcmd_clone, subcmd_fetch,
              subcmd_checkout, subcmd_log, subcmd_branch,
              List.count_cons]
    · rcases hk1 : (g._checkout_commit env).1 with e | u
      · rcases checkout_commit_trace g env with h2 | h2 <;>
          simp [htr, hk1, h2, subcmd_clone, subcmd_fetch, subcmd_checkout,
            List.count_cons]
      · rcases get_gitlog_trace g env with h3 | h3 <;>
          rcases checkout_commit_trace g env with h2 | h2 <;>
            simp [htr, hk1, h2, h3, subcmd_clone, subcmd_fetch,
              subcmd_checkout, subcmd_log, subcmd_branch,
              List.count_cons]
    · intro o2 hf
      have h2 := checkout_commit_fetch_ok g env o2 hf
      rw [htr, h2]
      simp
    · intro e hf
      have hk : g._checkout_commit env = (.error e, [g.fullCmd g._fetchArgs]) := by
        rw [Gitget._checkout_commit, hf]
      rw [htr, hk]
      simp
  · intro hcm c hcmem
    rcases enter_trace_nocommit g env fs hcm with h | h
    · rw [h] at hcmem
      simp only [List.mem_singleton] at hcmem
      subst hcmem
      constructor
      · rw [subcmd_clone]
        decide
      · rw [subcmd_clone]
        decide
    · rcases get_gitlog_trace g env with h3 | h3
      · rw [h3] at h
        rw [h] at hcmem
        simp only [List.mem_cons, List.not_mem_nil, or_false] at hcmem
        rcases hcmem with rfl | rfl
        · exact ⟨by rw [subcmd_clone]; decide, by rw [subcmd_clone]; decide⟩
        · exact ⟨by rw [subcmd_log]; decide, by rw [subcmd_log]; decide⟩
      · rw [h3] at h
        rw [h] at hcmem
        simp only [List.mem_cons, List.not_mem_nil, or_false] at hcmem
        rcases hcmem with rfl | rfl | rfl
        · exact ⟨by rw [subcmd_clone]; decide, by rw [subcmd_clone]; decide⟩
        · exact ⟨by rw [subcmd_log]; decide, by rw [subcmd_log]; decide⟩
        · exact ⟨by rw [subcmd_branch]; decide, by rw [subcmd_branch]; decide⟩

/-- Closed witness for `clone_command_shape`: the transport prelude of
the sample session. -/
theorem clone_command_shape_witness :
    gOwnedSample._gitcmd = ["git",
      "-c", "http.sslVerify=" ++ gOwnedSample.settings.GITGET_SSL_VERIFY,
      "-c", "http.proxy=" ++ gOwnedSample.settings.GITGET_PROXY] :=
  (clone_command_shape gOwnedSample).1

/-- Closed witness for `quoted_tokens_delivered`: the sample session's
fetch vector ends in the sanitized commit token, and quoting `a b` does
change it. -/
theorem quoted_tokens_delivered_witness :
    gOwnedSample.fullCmd gOwnedSample._fetchArgs =
      gOwnedSample._gitcmd ++ ["fetch", "--depth", "1", "origin",
        Gitget._sh_quote (.str (pyStrOpt gOwnedSample._commit))] ∧
    Gitget._sh_quote (.str "a b") ≠ "a b" :=
  ⟨(quoted_tokens_delivered gOwnedSample).2.1,
   (quoted_tokens_delivered gOwnedSample).2.2.2.2⟩

/-- A session whose commit was supplied as the empty string
(construction accepts it, since the length check is guarded by
truthiness). -/
def gEmptyCommit : Gitget := { gOwnedSample with _commit := some "" }

/-- C9 counterexample: with a supplied-but-empty commit the commit was
requested, yet the session issues neither a fetch nor a checkout,
because `__enter__` tests Python truthiness (`if self._commit:`), not
presence. -/
theorem empty_commit_no_fetch :
    gEmptyCommit._commit.isSome = true ∧
    (((gEmptyCommit.__enter__ envHappy emptyFS).2.2.map subcmd).contains
        (some "fetch")) = false ∧
    (((gEmptyCommit.__enter__ envHappy emptyFS).2.2.map subcmd).contains
        (some "checkout")) = false := by
  decide

/-- A session requesting a full-length commit id. -/
def gCommit : Gitget :=
  { gOwnedSample with _commit := some (String.mk (List.replicate 40 'a')) }

/-- Closed witness for `commit_fetch_checkout_sequence`: with a
40-character commit requested, the fetch is issued right after the
clone. -/
theorem commit_fetch_checkout_sequence_witness :
    truthyStr gCommit._commit = true ∧
    gCommit._run_command envHappy gCommit._cloneArgs = .ok "" ∧
    (gCommit.__enter__ envHappy emptyFS).2.2.take 2 =
      [gCommit.fullCmd gCommit._cloneArgs, gCommit.fullCmd gCommit._fetchArgs] :=
  ⟨by decide, by decide,
   ((commit_fetch_checkout_sequence gCommit envHappy emptyFS).1 (by decide)
     "" (by decide)).1⟩

end AS3Ninja
